import Mathlib

/-!
Shallow embedding of `cogs/cmd_errors.py` from the Licensy repository: the
`CmdErrors.on_command_error` listener and its `log_traceback` helper.

The Python code classifies a raised command error by `isinstance` chains and
performs side effects (channel sends, direct messages, re-invocation,
process-level critical logging, diagnostic-channel embed sends).  Here side
effects are reified into an `Output` record; external outcomes that the code
reacts to (whether `ctx.reinvoke()` raises, whether the direct message is
forbidden, whether a diagnostic-channel send raises) are supplied through an
`Env` record, so the handler is a pure function of `(Env, Ctx, error)`.
-/

namespace Licensy

/-- The variants of the errors distinguished by the `isinstance` chain in
`on_command_error`.  The Python classes involved are pairwise disjoint at the
points where they are tested (each subclass is tested before its superclass:
`BotMissingPermissions`, `MissingPermissions` and `NoPrivateMessage` before
`CheckFailure`), so the chain is faithfully a match on disjoint constructors.
String fields carry what the source reads off the exception object:
`missing_perms`, `retry_after`, `str(error)`, `code`, `message`. -/
inductive RaisedError where
  | commandNotFound
  | botMissingPermissions (missing_perms : List String)
  | disabledCommand
  | commandOnCooldown (retry_after : ℚ)
  | missingPermissions (missing_perms : List String)
  | userInputError (detail : String)
  | noPrivateMessage
  | checkFailure
  | forbidden (code : ℤ) (detail : String)
  | roleNotFound (message : String)
  | defaultGuildRoleNotSet (message : String)
  | databaseMissingData (message : String)
  | unknown (typeName : String) (detail : String)
  deriving DecidableEq, Repr

/-- An incoming error object as delivered by the framework: it may carry an
`original` attribute (a wrapper such as `CommandInvokeError` around the true
cause), which `on_command_error` unwraps via
`error = getattr(error, "original", error)`. -/
structure Incoming where
  original : Option RaisedError
  base : RaisedError
  deriving DecidableEq, Repr

/-- The slice of the invocation context the handler reads:
`hasattr(ctx.command, "on_error")`, `ctx.message.author.id`, and
`str(ctx.command)`. -/
structure Ctx where
  hasOnError : Bool
  authorId : ℕ
  commandName : String
  deriving DecidableEq, Repr

/-- Outcome of the attempted direct message `ctx.author.send(...)`:
it succeeds, raises `discord.Forbidden`, or raises some other exception. -/
inductive DMResult where
  | ok
  | forbidden
  | otherError (msg : String)
  deriving DecidableEq, Repr

/-- Ambient environment: bot state read by the handler
(`self.bot.config.get_developers().values()`, `self.bot.is_ready()`,
`self.bot.config.get_developer_log_channel_id()`, which channels
`self.bot.get_channel` can resolve) together with the outcomes of the
fallible external operations the handler reacts to
(`ctx.reinvoke()` raising, the DM send, a diagnostic-channel send raising). -/
structure Env where
  developers : List ℕ
  isReady : Bool
  developerLogChannelId : ℕ
  channels : List ℕ
  reinvokeRaises : Option String
  dmResult : DMResult
  channelSendRaises : Option String
  deriving DecidableEq, Repr

/-- Python `self.bot.get_channel(id)`: resolves an id to a channel, `none` when the
channel does not exist (not configured / deleted). -/
def getChannel (env : Env) (id : ℕ) : Option ℕ :=
  if id ∈ env.channels then some id else none

/-- Reified side effects of one handler invocation, in the order produced:
payloads of `ctx.send`, attempted and delivered `ctx.author.send` payloads,
whether `ctx.reinvoke()` was called, `logger.critical` payloads,
embeds delivered to the diagnostic channel, and the exception (if any) that
escaped the handler. -/
structure Output where
  sent : List String
  dmAttempted : List String
  dmSent : List String
  reinvoked : Bool
  criticalLogs : List String
  logChannelEmbeds : List String
  raised : Option String
  deriving DecidableEq, Repr

/-- Reified effects of one `log_traceback` call: `logger.critical` payloads,
embeds delivered to the diagnostic channel, and the exception (if any) the
call propagates. -/
structure LogResult where
  criticalLogs : List String
  logChannelEmbeds : List String
  raised : Option String
  deriving DecidableEq, Repr

/-- The output of a handler invocation that does nothing. -/
def emptyOutput : Output :=
  { sent := [], dmAttempted := [], dmSent := [], reinvoked := false
    criticalLogs := [], logChannelEmbeds := [], raised := none }

/-- An invocation whose only effect is a single `ctx.send`. -/
def sendOnly (msg : String) : Output :=
  { emptyOutput with sent := [msg] }

/-! ### Permission-name formatting

`perm.replace("_", " ").replace("guild", "server").title()` followed by the
join in the `BotMissingPermissions` / `MissingPermissions` branches. -/

/-- Python `perm.replace("_", " ")`: every underscore becomes a space
(single-character pattern, so the general left-to-right replacement is a
plain character map). -/
def replaceUnderscore (l : List Char) : List Char :=
  l.map (fun c => if c = '_' then ' ' else c)

/-- Python `.replace("guild", "server")`: every non-overlapping occurrence
of `guild`, scanned left to right, becomes `server`.  The first match arm is
tried at each position before falling through, which is exactly Python's
left-to-right non-overlapping semantics for this fixed pattern. -/
def replaceGuildServer : List Char → List Char
  | 'g' :: 'u' :: 'i' :: 'l' :: 'd' :: rest =>
      's' :: 'e' :: 'r' :: 'v' :: 'e' :: 'r' :: replaceGuildServer rest
  | c :: rest => c :: replaceGuildServer rest
  | [] => []

/-- Python `str.title()` on a character list: a letter that follows a
non-letter (or starts the string) is uppercased, every other letter is
lowercased; non-letters are kept and reset the word boundary. -/
def titleSeq : Bool → List Char → List Char
  | _, [] => []
  | prevCased, c :: rest =>
    let c' := if c.isAlpha then (if prevCased then c.toLower else c.toUpper) else c
    c' :: titleSeq c.isAlpha rest

/-- The normalization `perm.replace("_", " ").replace("guild", "server").title()` from the
`BotMissingPermissions` and `MissingPermissions` branches. -/
def normalizePerm (perm : String) : String :=
  ⟨titleSeq false (replaceGuildServer (replaceUnderscore perm.data))⟩

/-- The `fmt` computed from `error.missing_perms` in the
`BotMissingPermissions` and `MissingPermissions` branches:
normalize each name; if more than two, join all but the last with
`"**, **"` and append `", and "` plus the last; otherwise join with
`" and "`. -/
def fmtPerms (missing_perms : List String) : String :=
  let missing := missing_perms.map normalizePerm
  if missing.length > 2 then
    String.intercalate "**, **" missing.dropLast ++ ", and " ++
      (missing.getLast?.getD "")
  else
    String.intercalate " and " missing

/-- The formatting as the specification claim words it: all-but-last
*comma-joined* (separator `", "`) followed by `", and "` plus the last.
Stated only to compare with `fmtPerms`, which is taken from the source. -/
def fmtPermsClaimed (missing_perms : List String) : String :=
  let missing := missing_perms.map normalizePerm
  if missing.length > 2 then
    String.intercalate ", " missing.dropLast ++ ", and " ++
      (missing.getLast?.getD "")
  else
    String.intercalate " and " missing

/-! ### String forms of errors and the logging helper -/

/-- Python `error.__class__.__name__` for each variant, i.e. the class name
of the exception the `isinstance` chain recognized; for the `unknown`
fallback it is the carried type name. -/
def errorClassName : RaisedError → String
  | .commandNotFound => "CommandNotFound"
  | .botMissingPermissions _ => "BotMissingPermissions"
  | .disabledCommand => "DisabledCommand"
  | .commandOnCooldown _ => "CommandOnCooldown"
  | .missingPermissions _ => "MissingPermissions"
  | .userInputError _ => "UserInputError"
  | .noPrivateMessage => "NoPrivateMessage"
  | .checkFailure => "CheckFailure"
  | .forbidden _ _ => "Forbidden"
  | .roleNotFound _ => "RoleNotFound"
  | .defaultGuildRoleNotSet _ => "DefaultGuildRoleNotSet"
  | .databaseMissingData _ => "DatabaseMissingData"
  | .unknown typeName _ => typeName

/-- Python `f"{type(error)}"`: the printed form of the exception class,
`<class ...>` around the class name. -/
def errorTypeStr (e : RaisedError) : String :=
  "<class \x27" ++ errorClassName e ++ "\x27>"

/-- Python `str(error)`.  Modelled from the spec: the variants carrying a
`detail` or `message` field render as that field (`RaisedError` in the spec
data model carries exactly the text each error exposes; `helpers.errors`
exceptions are built from their message).  The remaining framework errors
render text the handler never reads (their branches send fixed replies and
never log), modelled as the empty string. -/
def errorStr : RaisedError → String
  | .userInputError detail => detail
  | .forbidden _ detail => detail
  | .roleNotFound message => message
  | .defaultGuildRoleNotSet message => message
  | .databaseMissingData message => message
  | .unknown _ detail => detail
  | _ => ""

/-- The `exception_message` local of `log_traceback`:
`f"Ignoring {error_type} exception in command '{ctx.command}':{error}"`. -/
def exception_message (ctx : Ctx) (error : RaisedError) : String :=
  "Ignoring " ++ errorTypeStr error ++ " exception in command \x27" ++
    ctx.commandName ++ "\x27:" ++ errorStr error

/-- Modelled from the spec: `traceback.format_exception` (Python standard
library, external to this component) renders the error's full stack trace;
the spec treats the stack as data carried by the error, so the rendering is
modelled as a formatting of the error's type and text. -/
def traceback_message (error : RaisedError) : String :=
  "Traceback: " ++ errorTypeStr error ++ ": " ++ errorStr error

/-- Modelled from the spec: `embed_handler.log_embed` (in `helpers`, outside
the given sources) builds the summary diagnostic entry from the exception
message, the context and the title `Command error!`. -/
def log_embed (message : String) : String :=
  "log_embed(Command error!, " ++ message ++ ")"

/-- Modelled from the spec: `embed_handler.traceback_embed` (in `helpers`,
outside the given sources) wraps the formatted stack trace in an embed. -/
def traceback_embed (message : String) : String :=
  "traceback_embed(" ++ message ++ ")"

/-- Function `CmdErrors.log_traceback`: always emit the exception message and the
traceback to the process-level critical log; then, if the bot is ready,
resolve the configured diagnostic channel and, when it resolves, send the
summary embed and the traceback embed to it.  A raising channel send
(`env.channelSendRaises` models the first `log_channel.send` raising) leaves
the critical logs written, delivers no embed, and propagates the
exception. -/
def log_traceback (env : Env) (ctx : Ctx) (error : RaisedError) : LogResult :=
  let em := exception_message ctx error
  let tm := traceback_message error
  let logs := [em, tm]
  if env.isReady then
    match getChannel env env.developerLogChannelId with
    | some _ =>
      match env.channelSendRaises with
      | some ex => { criticalLogs := logs, logChannelEmbeds := [], raised := some ex }
      | none =>
          { criticalLogs := logs
            logChannelEmbeds := [log_embed em, traceback_embed tm]
            raised := none }
    | none => { criticalLogs := logs, logChannelEmbeds := [], raised := none }
  else
    { criticalLogs := logs, logChannelEmbeds := [], raised := none }

/-! ### The handler -/

/-- The direct message attempted in the `NoPrivateMessage` branch. -/
def dmText : String := "This command cannot be used in direct messages."

/-- The `isinstance` dispatch of `on_command_error`, after the local-handler
early return and the unwrapping of `original`.  Each branch mirrors the
corresponding block of the source, in source order; the `unknown` arm is the
final fallthrough (log the traceback, then send the generic reply — so a
raising log aborts the handler before the reply, while in the
`databaseMissingData` arm the reply is sent before the log runs). -/
def dispatch (env : Env) (ctx : Ctx) (error : RaisedError) : Output :=
  match error with
  | .commandNotFound => sendOnly "Command not found."
  | .botMissingPermissions missing_perms =>
      sendOnly ("I need the **" ++ fmtPerms missing_perms ++
        "** permission(s) to run this command.")
  | .disabledCommand => sendOnly "This command has been disabled."
  | .commandOnCooldown retry_after =>
      if ctx.authorId ∈ env.developers then
        match env.reinvokeRaises with
        | none => { emptyOutput with reinvoked := true }
        | some e => { emptyOutput with reinvoked := true, sent := [e] }
      else
        sendOnly ("This command is on cooldown, please retry in " ++
          toString retry_after.ceil ++ "s.")
  | .missingPermissions missing_perms =>
      sendOnly ("You need the **" ++ fmtPerms missing_perms ++
        "** permission(s) to use this command.")
  | .userInputError detail => sendOnly ("Invalid command input: " ++ detail)
  | .noPrivateMessage =>
      match env.dmResult with
      | .ok => { emptyOutput with dmAttempted := [dmText], dmSent := [dmText] }
      | .forbidden => { emptyOutput with dmAttempted := [dmText] }
      | .otherError m => { emptyOutput with dmAttempted := [dmText], raised := some m }
  | .checkFailure => sendOnly "You do not have permission to use this command."
  | .forbidden code detail =>
      if code = 50013 then
        sendOnly (detail ++ ".\nCheck role hierarchy - I can only manage roles below me.")
      else if code = 50007 then
        sendOnly (detail ++ ".\nHint: Disabled DMs?")
      else
        sendOnly (detail ++ ".")
  | .roleNotFound message => sendOnly message
  | .defaultGuildRoleNotSet message =>
      sendOnly ("Trying to use default guild license but: " ++ message)
  | .databaseMissingData message =>
      let r := log_traceback env ctx (.databaseMissingData message)
      { emptyOutput with
          sent := ["Critical database error: " ++ message]
          criticalLogs := r.criticalLogs
          logChannelEmbeds := r.logChannelEmbeds
          raised := r.raised }
  | .unknown typeName detail =>
      let r := log_traceback env ctx (.unknown typeName detail)
      { emptyOutput with
          sent :=
            if r.raised = none then
              ["Ignoring exception **" ++ typeName ++
                "** that happened while processing command **" ++
                ctx.commandName ++ "**:\n" ++ detail]
            else []
          criticalLogs := r.criticalLogs
          logChannelEmbeds := r.logChannelEmbeds
          raised := r.raised }

/-- Function `CmdErrors.on_command_error`: return immediately when the command has a
local error handler (`hasattr(ctx.command, "on_error")`), otherwise unwrap
`error = getattr(error, "original", error)` and run the `isinstance`
dispatch. -/
def on_command_error (env : Env) (ctx : Ctx) (error : Incoming) : Output :=
  if ctx.hasOnError then emptyOutput
  else dispatch env ctx (error.original.getD error.base)

/-! ### Sample environments and contexts used by witnesses -/

/-- A context whose command has no local handler; author id 7. -/
def exCtx : Ctx := { hasOnError := false, authorId := 7, commandName := "redeem" }

/-- A context whose author is not a developer of `exEnv`. -/
def nonDevCtx : Ctx := { exCtx with authorId := 99 }

/-- A context whose command declares a local `on_error` handler. -/
def localCtx : Ctx := { exCtx with hasOnError := true }

/-- A ready environment whose diagnostic channel resolves and where no
external operation fails; author 7 is a developer. -/
def exEnv : Env :=
  { developers := [7, 42], isReady := true, developerLogChannelId := 5
    channels := [5], reinvokeRaises := none, dmResult := .ok
    channelSendRaises := none }

/-- Like `exEnv`, except the first diagnostic-channel send raises. -/
def failLogEnv : Env := { exEnv with channelSendRaises := some "503 Service Unavailable" }

/-- Like `exEnv`, except the bot is not ready. -/
def notReadyEnv : Env := { exEnv with isReady := false }

/-! ### Helper lemmas about `log_traceback` -/

/-- The two process-level critical-log entries are written on every path of
`log_traceback`. -/
theorem log_traceback_criticalLogs (env : Env) (ctx : Ctx) (e : RaisedError) :
    (log_traceback env ctx e).criticalLogs =
      [exception_message ctx e, traceback_message e] := by
  unfold log_traceback
  split
  · split
    · split <;> rfl
    · rfl
  · rfl

/-- When no diagnostic-channel send raises, `log_traceback` propagates no
exception. -/
theorem log_traceback_raised_none (env : Env) (ctx : Ctx) (e : RaisedError)
    (h : env.channelSendRaises = none) : (log_traceback env ctx e).raised = none := by
  unfold log_traceback
  rw [h]
  split
  · split <;> rfl
  · rfl

/-- When the bot is not ready, or the configured diagnostic channel does not
resolve, `log_traceback` delivers no embed and propagates no exception. -/
theorem log_traceback_unresolved (env : Env) (ctx : Ctx) (e : RaisedError)
    (h : env.isReady = false ∨ getChannel env env.developerLogChannelId = none) :
    (log_traceback env ctx e).logChannelEmbeds = [] ∧
      (log_traceback env ctx e).raised = none := by
  unfold log_traceback
  rcases h with h | h
  · rw [h]
    exact ⟨rfl, rfl⟩
  · rw [h]
    split
    · exact ⟨rfl, rfl⟩
    · exact ⟨rfl, rfl⟩

/-! ### The claims -/

/-- C1, counterexample.  The claim says that for more than two permission
names the all-but-last normalized names are comma-joined before
`", and {last}"` (the `A, B, and C` pattern).  The source joins them with
the separator `"**, **"` instead, so on the three-element list
`[kick_members, ban_members, manage_guild]` the produced `fmt` is
`Kick Members**, **Ban Members, and Manage Server`, not the comma-joined
`Kick Members, Ban Members, and Manage Server` the claim describes. -/
theorem claim1_counterexample :
    fmtPerms ["kick_members", "ban_members", "manage_guild"] =
      "Kick Members**, **Ban Members, and Manage Server" ∧
    fmtPermsClaimed ["kick_members", "ban_members", "manage_guild"] =
      "Kick Members, Ban Members, and Manage Server" ∧
    fmtPerms ["kick_members", "ban_members", "manage_guild"] ≠
      fmtPermsClaimed ["kick_members", "ban_members", "manage_guild"] := by
  refine ⟨by decide, by decide, by decide⟩

/-- C1, amended.  Each permission name is normalized (underscores to
spaces, `guild` renamed to `server`, then title-cased) and the normalized
names are joined preserving input order: one item yields the item itself,
two yield `{first} and {second}`, and more than two yield the all-but-last
items joined with the separator `"**, **"` (so that, once the whole `fmt`
is wrapped in `**...**` by the reply template, each name renders bold)
followed by `", and {last}"`; the `BotMissingPermissions` and
`MissingPermissions` replies embed exactly this `fmt`. -/
theorem claim1_fmt_amended (env : Env) (ctx : Ctx) (l : List String) :
    (dispatch env ctx (.botMissingPermissions l)).sent =
      ["I need the **" ++ fmtPerms l ++ "** permission(s) to run this command."] ∧
    (dispatch env ctx (.missingPermissions l)).sent =
      ["You need the **" ++ fmtPerms l ++ "** permission(s) to use this command."] ∧
    (∀ x, fmtPerms [x] = normalizePerm x) ∧
    (∀ x y, fmtPerms [x, y] = normalizePerm x ++ " and " ++ normalizePerm y) ∧
    (2 < l.length →
      fmtPerms l =
        String.intercalate "**, **" ((l.map normalizePerm).dropLast) ++ ", and " ++
          ((l.map normalizePerm).getLast?.getD "")) := by
  refine ⟨rfl, rfl, fun x => rfl, fun x y => rfl, fun h => ?_⟩
  have hl : (l.map normalizePerm).length > 2 := by simpa using h
  simp only [fmtPerms]
  rw [if_pos hl]

/-- Witness for `claim1_fmt_amended`: the three-case shape at concrete
lists of length one, two and three. -/
theorem claim1_fmt_amended_witness :
    fmtPerms ["administrator"] = "Administrator" ∧
    fmtPerms ["kick_members", "manage_guild"] = "Kick Members and Manage Server" ∧
    fmtPerms ["send_messages", "manage_guild", "kick_members"] =
      "Send Messages**, **Manage Server, and Kick Members" := by
  have h3 :=
    (claim1_fmt_amended exEnv exCtx ["send_messages", "manage_guild", "kick_members"]).2.2.2.2
      (by decide)
  have h1 := (claim1_fmt_amended exEnv exCtx []).2.2.1 "administrator"
  have h2 := (claim1_fmt_amended exEnv exCtx []).2.2.2.1 "kick_members" "manage_guild"
  refine ⟨by rw [h1]; decide, by rw [h2]; decide, by rw [h3]; decide⟩

/-- C2, counterexample.  The claim says a failure while delivering the
diagnostic log neither crashes the handler nor prevents the user-facing
reply.  In the fallback (`unknown`) branch the source calls
`log_traceback` *before* `ctx.send`, with no surrounding `try`: in an
environment where the diagnostic-channel send raises, the handler
propagates the exception and the user-facing reply is never sent. -/
theorem claim2_counterexample :
    (dispatch failLogEnv exCtx (.unknown "ValueError" "boom")).sent = [] ∧
    (dispatch failLogEnv exCtx (.unknown "ValueError" "boom")).raised =
      some "503 Service Unavailable" := by
  refine ⟨by decide, by decide⟩

/-- C2, amended.  Logging is not failure-isolated.  In the
`DatabaseMissingData` branch the reply is sent before the log call, so it is
sent even when logging fails, but a logging failure still propagates out of
the handler; in the `Unknown` fallback branch the log call precedes the
reply, so a logging failure both propagates and prevents the user-facing
reply. -/
theorem claim2_log_isolation_amended (env : Env) (ctx : Ctx) (m t d : String) :
    (dispatch env ctx (.databaseMissingData m)).sent =
      ["Critical database error: " ++ m] ∧
    (dispatch env ctx (.databaseMissingData m)).raised =
      (log_traceback env ctx (.databaseMissingData m)).raised ∧
    ((log_traceback env ctx (.unknown t d)).raised = none →
      (dispatch env ctx (.unknown t d)).sent =
        ["Ignoring exception **" ++ t ++
          "** that happened while processing command **" ++ ctx.commandName ++
          "**:\n" ++ d]) ∧
    (∀ ex, (log_traceback env ctx (.unknown t d)).raised = some ex →
      (dispatch env ctx (.unknown t d)).sent = [] ∧
      (dispatch env ctx (.unknown t d)).raised = some ex) := by
  refine ⟨rfl, rfl, fun h => ?_, fun ex h => ?_⟩
  · simp only [dispatch, h, if_pos]
  · constructor
    · simp [dispatch, h]
    · simp [dispatch, h]

/-- Witness for `claim2_log_isolation_amended` in an environment whose
diagnostic-channel send raises: the database reply is still sent, and the
fallback reply is suppressed. -/
theorem claim2_log_isolation_witness :
    (dispatch failLogEnv exCtx (.databaseMissingData "no guild row")).sent =
      ["Critical database error: no guild row"] ∧
    (dispatch failLogEnv exCtx (.unknown "ValueError" "boom")).sent = [] := by
  have h := claim2_log_isolation_amended failLogEnv exCtx "no guild row" "ValueError" "boom"
  exact ⟨h.1, (h.2.2.2 "503 Service Unavailable" (by decide)).1⟩

/-- C3, confirmed.  On `CommandOnCooldown`: when the invoking author's id is
among the configured developers, the command is re-invoked and the only
possible reply is the text of an exception raised by the re-invocation
itself (no cooldown message); when the author is not a developer, no
re-invocation happens and the only reply is the cooldown message built with
`math.ceil(error.retry_after)`. -/
theorem claim3_cooldown_bypass (env : Env) (ctx : Ctx) (q : ℚ) :
    (ctx.authorId ∈ env.developers →
      (dispatch env ctx (.commandOnCooldown q)).reinvoked = true ∧
      (dispatch env ctx (.commandOnCooldown q)).sent = env.reinvokeRaises.toList) ∧
    (ctx.authorId ∉ env.developers →
      (dispatch env ctx (.commandOnCooldown q)).reinvoked = false ∧
      (dispatch env ctx (.commandOnCooldown q)).sent =
        ["This command is on cooldown, please retry in " ++ toString q.ceil ++ "s."]) := by
  constructor
  · intro h
    cases hr : env.reinvokeRaises <;>
      simp [dispatch, h, hr, Option.toList, emptyOutput, sendOnly]
  · intro h
    simp [dispatch, h, emptyOutput, sendOnly]

/-- Witness for `claim3_cooldown_bypass`: author 7 is a developer of
`exEnv` and gets a silent re-invocation; author 99 is not and gets the
cooldown message for `retry_after = 7/2` (ceiling 4). -/
theorem claim3_cooldown_bypass_witness :
    (dispatch exEnv exCtx (.commandOnCooldown (Rat.divInt 7 2))).reinvoked = true ∧
    (dispatch exEnv exCtx (.commandOnCooldown (Rat.divInt 7 2))).sent = [] ∧
    (dispatch exEnv nonDevCtx (.commandOnCooldown (Rat.divInt 7 2))).reinvoked = false ∧
    (dispatch exEnv nonDevCtx (.commandOnCooldown (Rat.divInt 7 2))).sent =
      ["This command is on cooldown, please retry in 4s."] := by
  have hdev := (claim3_cooldown_bypass exEnv exCtx (Rat.divInt 7 2)).1 (by decide)
  have hnon := (claim3_cooldown_bypass exEnv nonDevCtx (Rat.divInt 7 2)).2 (by decide)
  refine ⟨hdev.1, by rw [hdev.2]; decide, hnon.1, by rw [hnon.2]; decide⟩

/-- C4, counterexample.  The claim says the fallback reply is *always* sent
with the error's type name and the command's name.  In the source the
fallback calls `log_traceback` before `ctx.send` with no surrounding `try`,
so in an environment where a diagnostic-channel send raises the handler
aborts and no reply at all is sent for the unknown error `KeyError`, even
though the log call did write the process-level entries. -/
theorem claim4_counterexample :
    (dispatch failLogEnv exCtx (.unknown "KeyError" "42")).sent = [] ∧
    (dispatch failLogEnv exCtx (.unknown "KeyError" "42")).criticalLogs ≠ [] := by
  refine ⟨by decide, by decide⟩

/-- C4, amended.  On the `unknown` fallback the diagnostic log call always
occurs — the two process-level critical entries are written in every
environment — and, whenever no diagnostic-channel send raises (so the
handler is not aborted by the log delivery), the reply is sent and is
exactly `Ignoring exception **{typeName}** that happened while processing
command **{command}**:` followed by a newline and the error's text. -/
theorem claim4_unknown_fallback (env : Env) (ctx : Ctx) (t d : String) :
    (dispatch env ctx (.unknown t d)).criticalLogs =
      [exception_message ctx (.unknown t d), traceback_message (.unknown t d)] ∧
    (env.channelSendRaises = none →
      (dispatch env ctx (.unknown t d)).sent =
        ["Ignoring exception **" ++ t ++
          "** that happened while processing command **" ++ ctx.commandName ++
          "**:\n" ++ d] ∧
      (dispatch env ctx (.unknown t d)).raised = none) := by
  refine ⟨log_traceback_criticalLogs env ctx (.unknown t d), fun h => ?_⟩
  have hr := log_traceback_raised_none env ctx (.unknown t d) h
  constructor
  · simp [dispatch, hr]
  · simpa [dispatch] using hr

/-- Witness for `claim4_unknown_fallback` at a concrete unknown error in
the fully healthy environment. -/
theorem claim4_unknown_fallback_witness :
    (dispatch exEnv exCtx (.unknown "ValueError" "boom")).criticalLogs ≠ [] ∧
    (dispatch exEnv exCtx (.unknown "ValueError" "boom")).sent =
      ["Ignoring exception **ValueError** that happened while processing command **redeem**:\nboom"] := by
  have h := claim4_unknown_fallback exEnv exCtx "ValueError" "boom"
  have hs := (h.2 rfl).1
  refine ⟨by rw [h.1]; decide, by rw [hs]; decide⟩

/-- C5, confirmed.  When the invoked command declares a local `on_error`
handler, `on_command_error` returns immediately: no channel send, no direct
message, no re-invocation, no critical log, no diagnostic embed, and no
propagated exception, for every environment and every incoming error. -/
theorem claim5_local_handler_noop (env : Env) (ctx : Ctx) (e : Incoming)
    (h : ctx.hasOnError = true) :
    on_command_error env ctx e = emptyOutput := by
  simp [on_command_error, h]

/-- Witness for `claim5_local_handler_noop` on a context whose command has
a local handler, at a concrete error that would otherwise reply and log. -/
theorem claim5_local_handler_noop_witness :
    on_command_error exEnv localCtx
      { original := none, base := .databaseMissingData "no guild row" } = emptyOutput :=
  claim5_local_handler_noop exEnv localCtx
    { original := none, base := .databaseMissingData "no guild row" } (by decide)

/-- C6, confirmed.  On `DatabaseMissingData` the handler both sends
`Critical database error: {message}` and calls the diagnostic logger (the
two process-level critical entries are written); on `RoleNotFound` it only
sends the error's message and performs no diagnostic logging at all. -/
theorem claim6_db_vs_role (env : Env) (ctx : Ctx) (m r : String) :
    (dispatch env ctx (.databaseMissingData m)).sent =
      ["Critical database error: " ++ m] ∧
    (dispatch env ctx (.databaseMissingData m)).criticalLogs =
      [exception_message ctx (.databaseMissingData m),
        traceback_message (.databaseMissingData m)] ∧
    (dispatch env ctx (.roleNotFound r)).sent = [r] ∧
    (dispatch env ctx (.roleNotFound r)).criticalLogs = [] ∧
    (dispatch env ctx (.roleNotFound r)).logChannelEmbeds = [] :=
  ⟨rfl, log_traceback_criticalLogs env ctx (.databaseMissingData m), rfl, rfl, rfl⟩

/-- C7, confirmed.  The `Forbidden` reply is determined exactly by the
numeric code: 50013 appends the role-hierarchy hint, 50007 appends the
disabled-DMs hint, and every other code yields just `{detail}.`, with
`detail` the error's text. -/
theorem claim7_forbidden_codes (env : Env) (ctx : Ctx) (code : ℤ) (detail : String) :
    (dispatch env ctx (.forbidden 50013 detail)).sent =
      [detail ++ ".\nCheck role hierarchy - I can only manage roles below me."] ∧
    (dispatch env ctx (.forbidden 50007 detail)).sent =
      [detail ++ ".\nHint: Disabled DMs?"] ∧
    (code ≠ 50013 → code ≠ 50007 →
      (dispatch env ctx (.forbidden code detail)).sent = [detail ++ "."]) := by
  refine ⟨rfl, rfl, fun h1 h2 => ?_⟩
  simp [dispatch, h1, h2, sendOnly, emptyOutput]

/-- Witness for `claim7_forbidden_codes` at codes 50013, 50007 and 90001. -/
theorem claim7_forbidden_codes_witness :
    (dispatch exEnv exCtx (.forbidden 50013 "403 Forbidden")).sent =
      ["403 Forbidden.\nCheck role hierarchy - I can only manage roles below me."] ∧
    (dispatch exEnv exCtx (.forbidden 50007 "403 Forbidden")).sent =
      ["403 Forbidden.\nHint: Disabled DMs?"] ∧
    (dispatch exEnv exCtx (.forbidden 90001 "403 Forbidden")).sent =
      ["403 Forbidden."] := by
  have h := claim7_forbidden_codes exEnv exCtx 90001 "403 Forbidden"
  exact ⟨h.1, h.2.1, h.2.2 (by decide) (by decide)⟩

/-- C8, counterexample.  The claim says `log_traceback` never throws.  It
has no exception handling of its own: when the bot is ready, the diagnostic
channel resolves, and a channel send raises, the exception propagates out
of `log_traceback` (the process-level critical entries having already been
written). -/
theorem claim8_counterexample :
    (log_traceback failLogEnv exCtx (.databaseMissingData "no guild row")).raised =
      some "503 Service Unavailable" ∧
    (log_traceback failLogEnv exCtx (.databaseMissingData "no guild row")).criticalLogs ≠
      [] := by
  refine ⟨by decide, by decide⟩

/-- C8, amended.  For every context and error, `log_traceback` writes the
error's type, command name, message and stack trace to the process-level
critical log (both entries, on every path, before any channel delivery);
when the bot is not ready or the diagnostic channel is not resolvable,
channel delivery is skipped and no exception propagates; an exception
propagates only when a diagnostic-channel send itself raises. -/
theorem claim8_log_traceback_amended (env : Env) (ctx : Ctx) (e : RaisedError) :
    (log_traceback env ctx e).criticalLogs =
      [exception_message ctx e, traceback_message e] ∧
    (env.isReady = false ∨ getChannel env env.developerLogChannelId = none →
      (log_traceback env ctx e).logChannelEmbeds = [] ∧
      (log_traceback env ctx e).raised = none) ∧
    (env.channelSendRaises = none → (log_traceback env ctx e).raised = none) :=
  ⟨log_traceback_criticalLogs env ctx e,
    fun h => log_traceback_unresolved env ctx e h,
    fun h => log_traceback_raised_none env ctx e h⟩

/-- Witness for `claim8_log_traceback_amended` in the not-ready environment
(diagnostic delivery unresolved): both critical entries written, no embeds,
no exception. -/
theorem claim8_log_traceback_amended_witness :
    (log_traceback notReadyEnv exCtx (.databaseMissingData "no guild row")).criticalLogs ≠
      [] ∧
    (log_traceback notReadyEnv exCtx (.databaseMissingData "no guild row")).logChannelEmbeds =
      [] ∧
    (log_traceback notReadyEnv exCtx (.databaseMissingData "no guild row")).raised =
      none := by
  have h := claim8_log_traceback_amended notReadyEnv exCtx (.databaseMissingData "no guild row")
  have hu := h.2.1 (Or.inl (by decide))
  exact ⟨by rw [h.1]; decide, hu.1, hu.2⟩

/-- C9, confirmed.  On `NoPrivateMessage` nothing is sent to the channel and
a direct message `This command cannot be used in direct messages.` is
attempted to the invoking author; a permission-denied (`discord.Forbidden`)
failure of that direct message is silently swallowed, while any other
failure of the direct message propagates out of the handler. -/
theorem claim9_no_private_message (env : Env) (ctx : Ctx) :
    (dispatch env ctx .noPrivateMessage).sent = [] ∧
    (dispatch env ctx .noPrivateMessage).dmAttempted = [dmText] ∧
    (env.dmResult = .ok →
      (dispatch env ctx .noPrivateMessage).dmSent = [dmText] ∧
      (dispatch env ctx .noPrivateMessage).raised = none) ∧
    (env.dmResult = .forbidden →
      (dispatch env ctx .noPrivateMessage).dmSent = [] ∧
      (dispatch env ctx .noPrivateMessage).raised = none) ∧
    (∀ m, env.dmResult = .otherError m →
      (dispatch env ctx .noPrivateMessage).raised = some m) := by
  refine ⟨?_, ?_, fun h => ?_, fun h => ?_, fun m h => ?_⟩
  · cases hd : env.dmResult <;> simp [dispatch, hd, emptyOutput, sendOnly]
  · cases hd : env.dmResult <;> simp [dispatch, hd, emptyOutput, sendOnly]
  · simp [dispatch, h, emptyOutput, sendOnly]
  · simp [dispatch, h, emptyOutput, sendOnly]
  · simp [dispatch, h, emptyOutput, sendOnly]

/-- Witness for `claim9_no_private_message`: DM delivered in the healthy
environment; `discord.Forbidden` swallowed in the forbidden environment. -/
theorem claim9_no_private_message_witness :
    (dispatch exEnv exCtx .noPrivateMessage).sent = [] ∧
    (dispatch exEnv exCtx .noPrivateMessage).dmSent = [dmText] ∧
    (dispatch { exEnv with dmResult := .forbidden } exCtx .noPrivateMessage).dmSent = [] ∧
    (dispatch { exEnv with dmResult := .forbidden } exCtx .noPrivateMessage).raised =
      none := by
  have hok := claim9_no_private_message exEnv exCtx
  have hfb := claim9_no_private_message { exEnv with dmResult := .forbidden } exCtx
  exact ⟨hok.1, (hok.2.2.1 rfl).1, (hfb.2.2.2.1 rfl).1, (hfb.2.2.2.1 rfl).2⟩

/-- C10, confirmed.  When the incoming error carries an `original`
attribute, classification, reply formatting and logging act on the inner
original error: handling the wrapped error is exactly the dispatch of the
inner error, and handling an error without `original` is exactly the
dispatch of the error itself. -/
theorem claim10_unwrap_original (env : Env) (ctx : Ctx) (inner base : RaisedError)
    (h : ctx.hasOnError = false) :
    on_command_error env ctx { original := some inner, base := base } =
      dispatch env ctx inner ∧
    on_command_error env ctx { original := none, base := base } =
      dispatch env ctx base := by
  constructor <;> simp [on_command_error, h]

/-- Witness for `claim10_unwrap_original`: a `CommandInvokeError`-style
wrapper around `Forbidden` is classified as the inner `Forbidden`, not as
an unknown error. -/
theorem claim10_unwrap_original_witness :
    on_command_error exEnv exCtx
      { original := some (.forbidden 50013 "403 Forbidden")
        base := .unknown "CommandInvokeError" "wrapped" } =
      dispatch exEnv exCtx (.forbidden 50013 "403 Forbidden") ∧
    (on_command_error exEnv exCtx
      { original := some (.forbidden 50013 "403 Forbidden")
        base := .unknown "CommandInvokeError" "wrapped" }).sent =
      ["403 Forbidden.\nCheck role hierarchy - I can only manage roles below me."] := by
  have h :=
    (claim10_unwrap_original exEnv exCtx (.forbidden 50013 "403 Forbidden")
      (.unknown "CommandInvokeError" "wrapped") (by decide)).1
  exact ⟨h, by rw [h]; decide⟩

end Licensy
